import Mathlib

/-!
Shallow embedding of the Story Buddy chat backend (three snapshots of the
FastAPI `/chat` endpoint: `main.py`, `main1.py`, `main2.py`).

The text-generation collaborator (Gemini) is external and non-deterministic,
so each embedded endpoint takes the collaborator's result as an input:
`Option String`, where `none` models a raised exception / timeout of the
call and `some raw` models a successful call returning `raw`.  Prompt
construction only feeds the collaborator and has no effect on the returned
state, so it is not modelled.  Python `str` operations used by the code
(`in`, `replace`, `strip`, `upper`, `lower`, `startswith`) are modelled
character-exactly on `List Char` (ASCII case mapping, the six ASCII
whitespace characters stripped by `str.strip`).
-/

namespace StoryBuddy

/-- Python `str.isspace` characters relevant to `str.strip()` (ASCII). -/
def isPySpace (c : Char) : Bool :=
  c = ' ' || c = '\t' || c = '\n' || c = '\r' || c = '\x0b' || c = '\x0c'

/-- Characters of Python `s.strip()`: drop leading and trailing whitespace. -/
def pyStripChars (l : List Char) : List Char :=
  (l.dropWhile isPySpace).rdropWhile isPySpace

/-- Python `s.strip()`. -/
def pyStrip (s : String) : String := ⟨pyStripChars s.data⟩

/-- Python `s.upper()` (ASCII). -/
def pyUpper (s : String) : String := ⟨s.data.map Char.toUpper⟩

/-- Python `s.lower()` (ASCII). -/
def pyLower (s : String) : String := ⟨s.data.map Char.toLower⟩

/-- Does `l` start with `pat`?  (Python `startswith`, character-exact.) -/
def startsWithChars : List Char → List Char → Bool
  | [], _ => true
  | _ :: _, [] => false
  | p :: ps, c :: cs => p == c && startsWithChars ps cs

/-- Does `pat` occur as a contiguous substring of `l`?  (Python `pat in s`.) -/
def hasSub (pat : List Char) : List Char → Bool
  | [] => pat.isEmpty
  | c :: rest => startsWithChars pat (c :: rest) || hasSub pat rest

/-- Python `pat in s` on strings. -/
def strIn (pat s : String) : Bool := hasSub pat.data s.data

/-- Single left-to-right pass removing every non-overlapping occurrence of
`pat`, continuing after each removed occurrence — the behaviour of Python
`s.replace(pat, "")`.  The fuel argument (initially the length of the list)
only makes the recursion structural; one character is consumed per step, so
the fuel never runs out. -/
def rmOccAux (pat : List Char) : Nat → List Char → List Char
  | _, [] => []
  | 0, l => l
  | fuel + 1, c :: rest =>
    if startsWithChars pat (c :: rest) && !pat.isEmpty then
      rmOccAux pat fuel (rest.drop (pat.length - 1))
    else
      c :: rmOccAux pat fuel rest

/-- Characters of Python `s.replace(pat, "")`. -/
def rmOcc (pat l : List Char) : List Char := rmOccAux pat l.length l

/-- Python `s.replace(pat, "")` on strings. -/
def pyRemove (s pat : String) : String := ⟨rmOcc pat.data s.data⟩

/-- The control marker the collaborator uses to request advancement. -/
def advTag : String := "[ADVANCE]"

/-- The control marker the collaborator uses to request staying. -/
def stayTag : String := "[STAY]"

/-- The marker-removal part of the sanitizer, shared by all three snapshots:
`raw_response.replace("[ADVANCE]", "").replace("[STAY]", "")`. -/
def rmMarkers (s : String) : String := pyRemove (pyRemove s advTag) stayTag

/-- Request body of `POST /chat` in `main.py` / `main1.py`
(pydantic `ChatRequest`). -/
structure ChatRequest where
  user_input : String
  current_stage : Int
  stage_turn_count : Int
  story_context : String
deriving DecidableEq

/-- Response object of `POST /chat` in `main.py` / `main1.py`. -/
structure ChatResponse where
  reply : String
  current_stage : Int
  stage_turn_count : Int
  story_context : String
  action : String
  emotion : String
  image_url : String
deriving DecidableEq

/-- Outcome of a `main.py` / `main1.py` chat turn: either the normal JSON
response, or the `HTTPException(status_code=500, detail=...)` raised by the
`except` block when the collaborator call fails. -/
inductive Outcome where
  | ok (r : ChatResponse)
  | http500 (detail : String)
deriving DecidableEq

/-- Action field of a successful outcome, `none` for an error outcome. -/
def Outcome.actionOf : Outcome → Option String
  | .ok r => some r.action
  | .http500 _ => none

/-- Whether the outcome is a normal (non-error) response. -/
def Outcome.isOk : Outcome → Bool
  | .ok _ => true
  | .http500 _ => false

/-- The hard-coded stage catalog `STAGES` of `main.py` / `main1.py`
(themes keyed by stage number 1..8). -/
def STAGES (n : Int) : Option String :=
  if n = 1 then some "Introducing the boy and his chameleon friend."
  else if n = 2 then some "The mystical forest is losing its colors; it is turning gray and dull."
  else if n = 3 then some "They use a magnifying glass to explore and hear mysterious giggles."
  else if n = 4 then some "They find the Greedy Crow with a heavy, fluttering sack of stolen colors."
  else if n = 5 then some "Using a slingshot with red berries, the boy hits the crow; the crow drops the sack."
  else if n = 6 then some "A massive explosion of light! Rainbow colors return to the flowers and trees."
  else if n = 7 then some "The Crow is sad and gray. The heroes decide to help him become colorful and happy again."
  else if n = 8 then some "A final lesson about a brave heart, kindness, and making everyone feel included."
  else none

/-- URL of the final image, `IMAGE_MAP[8]`, used as the fallback of
`IMAGE_MAP.get(new_stage, IMAGE_MAP[8])`. -/
def IMAGE_URL_8 : String :=
  "https://raw.githubusercontent.com/balaprakas/images/refs/heads/main/rainbowstory/RainbowStory_Image8.jpg"

/-- The hard-coded `IMAGE_MAP` of `main.py` / `main1.py`
(image URLs keyed by stage number 1..8). -/
def IMAGE_MAP (n : Int) : Option String :=
  if n = 1 then some "https://raw.githubusercontent.com/balaprakas/images/refs/heads/main/rainbowstory/RainbowStory_Image1.jpg"
  else if n = 2 then some "https://raw.githubusercontent.com/balaprakas/images/refs/heads/main/rainbowstory/RainbowStory_Image2.jpg"
  else if n = 3 then some "https://raw.githubusercontent.com/balaprakas/images/refs/heads/main/rainbowstory/RainbowStory_Image3.jpg"
  else if n = 4 then some "https://raw.githubusercontent.com/balaprakas/images/refs/heads/main/rainbowstory/RainbowStory_Image4.jpg"
  else if n = 5 then some "https://raw.githubusercontent.com/balaprakas/images/refs/heads/main/rainbowstory/RainbowStory_Image5.jpg"
  else if n = 6 then some "https://raw.githubusercontent.com/balaprakas/images/refs/heads/main/rainbowstory/RainbowStory_Image6.jpg"
  else if n = 7 then some "https://raw.githubusercontent.com/balaprakas/images/refs/heads/main/rainbowstory/RainbowStory_Image7.jpg"
  else if n = 8 then some IMAGE_URL_8
  else none

namespace Main

/-- Detail text of the `HTTPException` raised by `main.py` on a
collaborator failure. -/
def detailMsg : String := "The Story Buddy got a bit sleepy. Try again!"

/-- Emotion extraction of `main.py`: loop over SURPRISED, THINKING, SAD in
order, each match overwriting the previous (default HAPPY), checked against
`raw_response.upper()`. -/
def detectEmotion (raw : String) : String :=
  let u := pyUpper raw
  let e1 := if strIn "SURPRISED" u then "SURPRISED" else "HAPPY"
  let e2 := if strIn "THINKING" u then "THINKING" else e1
  if strIn "SAD" u then "SAD" else e2

/-- Advancement decision of `main.py`:
`should_advance = "[ADVANCE]" in raw_response or req.stage_turn_count >= 2`. -/
def shouldAdvance (req : ChatRequest) (raw : String) : Bool :=
  strIn advTag raw || decide (2 ≤ req.stage_turn_count)

/-- The value `new_stage` holds before the cap:
`req.current_stage + 1 if should_advance else req.current_stage`. -/
def uncapped (req : ChatRequest) (raw : String) : Int :=
  if shouldAdvance req raw then req.current_stage + 1 else req.current_stage

/-- The returned stage after the `if new_stage > 8: new_stage = 8` cap. -/
def newStage (req : ChatRequest) (raw : String) : Int :=
  if 8 < uncapped req raw then 8 else uncapped req raw

/-- The returned turn count: `0 if should_advance else req.stage_turn_count + 1`. -/
def newTurn (req : ChatRequest) (raw : String) : Int :=
  if shouldAdvance req raw then 0 else req.stage_turn_count + 1

/-- Body of the `try` block of `main.py`'s `chat_endpoint` after a
successful collaborator call returning `raw`. -/
def chatResponse (req : ChatRequest) (raw : String) : ChatResponse :=
  { reply := pyStrip (rmMarkers raw)
    current_stage := newStage req raw
    stage_turn_count := newTurn req raw
    story_context := req.story_context ++ (" " ++ (req.user_input ++ "."))
    action := if shouldAdvance req raw then "ADVANCE" else "STAY"
    emotion := detectEmotion raw
    image_url := (IMAGE_MAP (newStage req raw)).getD IMAGE_URL_8 }

/-- `main.py`'s `chat_endpoint`: a failed collaborator call is caught and
turned into an HTTP 500 with an apology detail. -/
def chat_endpoint (req : ChatRequest) (gen : Option String) : Outcome :=
  match gen with
  | some raw => Outcome.ok (chatResponse req raw)
  | none => Outcome.http500 detailMsg

end Main

namespace Main1

/-- Detail text of the `HTTPException` raised by `main1.py` on a
collaborator failure. -/
def detailMsg : String := "The Story Buddy is thinking..."

/-- The fixed completion phrase checked (lower-cased) in `main1.py`. -/
def completionPhrase : String := "i have finished writing this part in my template"

/-- Emotion-label prefixes stripped by `main1.py`. -/
def labelList : List String := ["HAPPY:", "SURPRISED:", "THINKING:", "SAD:"]

/-- One iteration of `main1.py`'s prefix-stripping loop:
`if clean_reply.upper().startswith(p): clean_reply = clean_reply[len(p):].strip()`. -/
def stripStep (s : String) (p : String) : String :=
  if startsWithChars p.data (pyUpper s).data then pyStrip ⟨s.data.drop p.data.length⟩ else s

/-- The prefix-stripping loop of `main1.py`. -/
def stripLabels (s : String) : String := labelList.foldl stripStep s

/-- Whether the text starts (case-insensitively) with one of the four
emotion labels. -/
def hasLabel (s : String) : Bool :=
  labelList.any (fun p => startsWithChars p.data (pyUpper s).data)

/-- The full sanitizer of `main1.py`: remove both markers, strip whitespace,
then strip emotion-label prefixes. -/
def cleanReply (raw : String) : String := stripLabels (pyStrip (rmMarkers raw))

/-- The explicit completion signal:
`"i have finished writing this part in my template" in req.user_input.lower()`. -/
def buttonDone (req : ChatRequest) : Bool :=
  strIn completionPhrase (pyLower req.user_input)

/-- Advancement decision of `main1.py`:
`ai_wants_advance or button_done or turn_limit_reached` (limit 4). -/
def shouldAdvance (req : ChatRequest) (raw : String) : Bool :=
  strIn advTag raw || buttonDone req || decide (4 ≤ req.stage_turn_count)

/-- The value `new_stage` holds before the cap. -/
def uncapped (req : ChatRequest) (raw : String) : Int :=
  if shouldAdvance req raw then req.current_stage + 1 else req.current_stage

/-- The returned stage after the `if new_stage > 8: new_stage = 8` cap. -/
def newStage (req : ChatRequest) (raw : String) : Int :=
  if 8 < uncapped req raw then 8 else uncapped req raw

/-- The returned turn count. -/
def newTurn (req : ChatRequest) (raw : String) : Int :=
  if shouldAdvance req raw then 0 else req.stage_turn_count + 1

/-- Body of the `try` block of `main1.py`'s `chat_endpoint` after a
successful collaborator call returning `raw`. -/
def chatResponse (req : ChatRequest) (raw : String) : ChatResponse :=
  { reply := cleanReply raw
    current_stage := newStage req raw
    stage_turn_count := newTurn req raw
    story_context := req.story_context ++ (" Child: " ++ (req.user_input ++ "."))
    action := if shouldAdvance req raw then "ADVANCE" else "STAY"
    emotion := "HAPPY"
    image_url := (IMAGE_MAP (newStage req raw)).getD IMAGE_URL_8 }

/-- `main1.py`'s `chat_endpoint`. -/
def chat_endpoint (req : ChatRequest) (gen : Option String) : Outcome :=
  match gen with
  | some raw => Outcome.ok (chatResponse req raw)
  | none => Outcome.http500 detailMsg

end Main1

/-- One row of the `story_stages` table returned by the record store for a
book in `main2.py` (`select * ... order by stage_number`). -/
structure StageRow where
  stage_number : Int
  theme : String
  image_url : String
deriving DecidableEq

/-- The dict comprehension `{s['stage_number']: s for s in stages}` followed
by lookup: later rows with the same stage number overwrite earlier ones. -/
def stagesMap (stages : List StageRow) (n : Int) : Option StageRow :=
  stages.foldl (fun acc s => if s.stage_number = n then some s else acc) none

/-- Request body of `POST /chat` in `main2.py` (history omitted: it only
feeds the collaborator prompt). -/
structure ChatRequest2 where
  user_input : String
  current_stage : Int
  stage_turn_count : Int
  story_context : Option String
  book_id : String
  session_id : String
deriving DecidableEq

/-- Response object of `POST /chat` in `main2.py`. -/
structure ChatResponse2 where
  reply : String
  current_stage : Int
  stage_turn_count : Int
  image_url : String
  action : String
  story_context : String
deriving DecidableEq

/-- Arguments of the `update_session_state` background task enqueued by a
successful `main2.py` turn — the session fields that get persisted. -/
structure SessionUpdate where
  current_stage : Int
  stage_turn_count : Int
  story_context : String
deriving DecidableEq

/-- Outcome of a `main2.py` chat turn.  `keyError` is the unhandled
`KeyError` from `stages_map[req.current_stage]` (surfaced as a generic
HTTP 500); `genFault` is an unhandled exception from a
`model.generate_content` call (`main2.py` has no `try`/`except`).  Only the
`ok` outcome enqueues a session-state update. -/
inductive Outcome2 where
  | ok (r : ChatResponse2) (upd : SessionUpdate)
  | keyError
  | genFault
deriving DecidableEq

/-- Action field of a successful `main2.py` outcome. -/
def Outcome2.actionOf : Outcome2 → Option String
  | .ok r _ => some r.action
  | _ => none

/-- The enqueued session update of a successful `main2.py` outcome. -/
def Outcome2.updateOf : Outcome2 → Option SessionUpdate
  | .ok _ u => some u
  | _ => none

namespace Main2

/-- Context accumulation of `main2.py`:
`(req.story_context or "") + f" | Child: {req.user_input}"`. -/
def updatedContext (req : ChatRequest2) : String :=
  (req.story_context.getD "") ++ (" | Child: " ++ req.user_input)

/-- Advancement decision of `main2.py`:
`should_adv = "[ADVANCE]" in ai_res_raw and nxt` — the marker must be
present AND a next stage row must exist. -/
def shouldAdv (stages : List StageRow) (req : ChatRequest2) (raw : String) : Bool :=
  strIn advTag raw && (stagesMap stages (req.current_stage + 1)).isSome

/-- The returned stage: `req.current_stage + 1 if should_adv else req.current_stage`
(`main2.py` has no cap). -/
def newStage (stages : List StageRow) (req : ChatRequest2) (raw : String) : Int :=
  if shouldAdv stages req raw then req.current_stage + 1 else req.current_stage

/-- The returned turn count. -/
def newTurn (stages : List StageRow) (req : ChatRequest2) (raw : String) : Int :=
  if shouldAdv stages req raw then 0 else req.stage_turn_count + 1

/-- The returned reply: the sanitized first-pass text when staying, or the
celebration line built from the second-pass text `nres` when advancing. -/
def replyStr (stages : List StageRow) (req : ChatRequest2) (raw nres : String) : String :=
  if shouldAdv stages req raw then "Yay! You did a wonderful job. " ++ pyStrip nres
  else pyStrip (rmMarkers raw)

/-- The returned image:
`stages_map.get(new_stage, {}).get("image_url", curr["image_url"])`. -/
def finalImage (stages : List StageRow) (req : ChatRequest2) (curr : StageRow)
    (raw : String) : String :=
  match stagesMap stages (newStage stages req raw) with
  | some s => s.image_url
  | none => curr.image_url

/-- The successful-path response of `main2.py`, given the current stage row
`curr`, the first collaborator reply `raw` and (used only when advancing)
the second-pass collaborator reply `nres`. -/
def okResult (stages : List StageRow) (req : ChatRequest2) (curr : StageRow)
    (raw : String) (nres : String) : Outcome2 :=
  Outcome2.ok
    { reply := replyStr stages req raw nres
      current_stage := newStage stages req raw
      stage_turn_count := newTurn stages req raw
      image_url := finalImage stages req curr raw
      action := if shouldAdv stages req raw then "ADVANCE" else "STAY"
      story_context := updatedContext req }
    { current_stage := newStage stages req raw
      stage_turn_count := newTurn stages req raw
      story_context := updatedContext req }

/-- `main2.py`'s `chat_endpoint`.  `gen1` is the result of the first
`generate_content` call, `gen2` of the second-pass call (only made when
advancing); `none` models the call raising.  The `stages_map[...]` lookup
happens before any collaborator call, and the session update is only
enqueued on the fully successful path. -/
def chat_endpoint (stages : List StageRow) (req : ChatRequest2)
    (gen1 gen2 : Option String) : Outcome2 :=
  match stagesMap stages req.current_stage with
  | none => Outcome2.keyError
  | some curr =>
    match gen1 with
    | none => Outcome2.genFault
    | some raw =>
      if shouldAdv stages req raw then
        match gen2 with
        | none => Outcome2.genFault
        | some nres => okResult stages req curr raw nres
      else okResult stages req curr raw ""

end Main2

/-! ### Helper lemmas -/

theorem STAGES_isSome_iff (n : Int) : (STAGES n).isSome = true ↔ 1 ≤ n ∧ n ≤ 8 := by
  unfold STAGES
  split_ifs <;> simp_all
  omega

theorem IMAGE_MAP_isSome_iff (n : Int) : (IMAGE_MAP n).isSome = true ↔ 1 ≤ n ∧ n ≤ 8 := by
  unfold IMAGE_MAP
  split_ifs <;> simp_all
  omega

theorem rmOccAux_of_not_hasSub (pat : List Char) :
    ∀ (fuel : Nat) (l : List Char), hasSub pat l = false → rmOccAux pat fuel l = l := by
  intro fuel
  induction fuel with
  | zero => intro l _; cases l <;> rfl
  | succ fuel ih =>
    intro l h
    cases l with
    | nil => rfl
    | cons c rest =>
      rw [hasSub, Bool.or_eq_false_iff] at h
      rw [rmOccAux, if_neg (by simp [h.1]), ih rest h.2]

theorem rmOcc_of_not_hasSub {pat l : List Char} (h : hasSub pat l = false) :
    rmOcc pat l = l :=
  rmOccAux_of_not_hasSub pat l.length l h

theorem pyRemove_of_not_strIn {s pat : String} (h : strIn pat s = false) :
    pyRemove s pat = s := by
  unfold strIn at h
  unfold pyRemove
  rw [rmOcc_of_not_hasSub h]

theorem rmMarkers_of_clean {s : String} (h1 : strIn advTag s = false)
    (h2 : strIn stayTag s = false) : rmMarkers s = s := by
  unfold rmMarkers
  rw [pyRemove_of_not_strIn h1, pyRemove_of_not_strIn h2]

theorem dropWhile_split (p : Char → Bool) :
    ∀ l : List Char, ∃ s, l = s ++ l.dropWhile p := by
  intro l
  induction l with
  | nil => exact ⟨[], rfl⟩
  | cons c rest ih =>
    by_cases h : p c
    · obtain ⟨s, hs⟩ := ih
      exact ⟨c :: s, by rw [List.dropWhile_cons, if_pos h, List.cons_append, ← hs]⟩
    · exact ⟨[], by rw [List.dropWhile_cons, if_neg h, List.nil_append]⟩

theorem rdropWhile_split (p : Char → Bool) (l : List Char) :
    ∃ t, l = l.rdropWhile p ++ t := by
  obtain ⟨s, hs⟩ := dropWhile_split p l.reverse
  refine ⟨s.reverse, ?_⟩
  have h2 := congrArg List.reverse hs
  rw [List.reverse_reverse, List.reverse_append] at h2
  rw [List.rdropWhile]
  exact h2

theorem length_dropWhile_le (p : Char → Bool) :
    ∀ l : List Char, (l.dropWhile p).length ≤ l.length := by
  intro l
  induction l with
  | nil => simp
  | cons c rest ih =>
    by_cases h : p c
    · rw [List.dropWhile_cons, if_pos h]
      exact Nat.le_trans ih (Nat.le_succ _)
    · rw [List.dropWhile_cons, if_neg h]

theorem dropWhile_rdropWhile (p : Char → Bool) {m : List Char}
    (hm : m.dropWhile p = m) : (m.rdropWhile p).dropWhile p = m.rdropWhile p := by
  cases hr : m.rdropWhile p with
  | nil => rfl
  | cons c t =>
    obtain ⟨u, hu⟩ := rdropWhile_split p m
    rw [hr, List.cons_append] at hu
    rw [hu, List.dropWhile_cons] at hm
    by_cases hpc : p c
    · rw [if_pos hpc] at hm
      have hlen := congrArg List.length hm
      rw [List.length_cons] at hlen
      have hle := length_dropWhile_le p (t ++ u)
      omega
    · rw [List.dropWhile_cons, if_neg hpc]

theorem pyStripChars_idem (l : List Char) :
    pyStripChars (pyStripChars l) = pyStripChars l := by
  unfold pyStripChars
  rw [dropWhile_rdropWhile isPySpace (List.dropWhile_idempotent isPySpace l),
    List.rdropWhile_idempotent]

theorem pyStrip_idem (s : String) : pyStrip (pyStrip s) = pyStrip s :=
  congrArg String.mk (pyStripChars_idem s.data)

namespace Main1

theorem stripLabels_of_no_label {s : String} (h : hasLabel s = false) :
    stripLabels s = s := by
  rw [hasLabel, labelList] at h
  simp only [List.any_cons, List.any_nil, Bool.or_eq_false_iff] at h
  obtain ⟨h1, h2, h3, h4, -⟩ := h
  have e1 : stripStep s "HAPPY:" = s := by rw [stripStep, if_neg (by simp [h1])]
  have e2 : stripStep s "SURPRISED:" = s := by rw [stripStep, if_neg (by simp [h2])]
  have e3 : stripStep s "THINKING:" = s := by rw [stripStep, if_neg (by simp [h3])]
  have e4 : stripStep s "SAD:" = s := by rw [stripStep, if_neg (by simp [h4])]
  rw [stripLabels, labelList]
  simp only [List.foldl]
  rw [e1, e2, e3, e4]

theorem pyStrip_stripStep {s : String} (p : String) (h : pyStrip s = s) :
    pyStrip (stripStep s p) = stripStep s p := by
  unfold stripStep
  split
  · exact pyStrip_idem _
  · exact h

theorem pyStrip_foldl (ps : List String) : ∀ s : String, pyStrip s = s →
    pyStrip (ps.foldl stripStep s) = ps.foldl stripStep s := by
  induction ps with
  | nil => intro s h; simpa using h
  | cons p ps ih => intro s h; exact ih _ (pyStrip_stripStep p h)

theorem pyStrip_cleanReply (raw : String) :
    pyStrip (cleanReply raw) = cleanReply raw := by
  rw [cleanReply, stripLabels]
  exact pyStrip_foldl labelList _ (pyStrip_idem _)

end Main1

namespace Main2

theorem okResult_fields {stages : List StageRow} {req : ChatRequest2}
    {curr : StageRow} {raw nres : String} {r : ChatResponse2} {upd : SessionUpdate}
    (h : okResult stages req curr raw nres = Outcome2.ok r upd) :
    r.action = (if shouldAdv stages req raw then "ADVANCE" else "STAY") ∧
    r.current_stage = newStage stages req raw ∧
    r.stage_turn_count = newTurn stages req raw ∧
    r.story_context = updatedContext req ∧
    r.image_url = finalImage stages req curr raw ∧
    upd.current_stage = r.current_stage ∧
    upd.stage_turn_count = r.stage_turn_count ∧
    upd.story_context = r.story_context := by
  rw [okResult] at h
  injection h with hr hu
  subst hr
  subst hu
  exact ⟨rfl, rfl, rfl, rfl, rfl, rfl, rfl, rfl⟩

theorem chat_ok_cases {stages : List StageRow} {req : ChatRequest2} {raw : String}
    {g2 : Option String} {r : ChatResponse2} {upd : SessionUpdate}
    (h : chat_endpoint stages req (some raw) g2 = Outcome2.ok r upd) :
    ∃ curr, stagesMap stages req.current_stage = some curr ∧
      ∃ nres, okResult stages req curr raw nres = Outcome2.ok r upd := by
  rw [chat_endpoint] at h
  cases hcur : stagesMap stages req.current_stage with
  | none => rw [hcur] at h; exact absurd h (by simp)
  | some curr =>
    rw [hcur] at h
    simp only [] at h
    refine ⟨curr, rfl, ?_⟩
    by_cases hadv : shouldAdv stages req raw = true
    · rw [if_pos hadv] at h
      cases g2 with
      | none => exact absurd h (by simp)
      | some nres => exact ⟨nres, h⟩
    · rw [if_neg hadv] at h
      exact ⟨"", h⟩

end Main2

/-! ### Concrete values used in witness instantiations -/

/-- Two-stage catalog used in concrete instantiations. -/
def wStages : List StageRow := [⟨1, "t1", "u1"⟩, ⟨2, "t2", "u2"⟩]

/-- One-stage catalog (a final stage with no successor). -/
def wStages1 : List StageRow := [⟨1, "t1", "u1"⟩]

/-- A concrete advancing `main2.py` request. -/
def wReqAdv : ChatRequest2 := ⟨"hi", 1, 0, some "c", "b", "s"⟩

/-- The response `main2.py` computes for `wReqAdv` on `wStages` with first
reply containing the marker and second reply `"Next!"`. -/
def wRespAdv : ChatResponse2 :=
  ⟨"Yay! You did a wonderful job. Next!", 2, 0, "u2", "ADVANCE", "c | Child: hi"⟩

/-- The session update enqueued for `wReqAdv`. -/
def wUpdAdv : SessionUpdate := ⟨2, 0, "c | Child: hi"⟩

/-- A concrete staying `main2.py` request (turn count 4). -/
def wReqStay : ChatRequest2 := ⟨"hi", 1, 4, some "c", "b", "s"⟩

/-- The response `main2.py` computes for `wReqStay` on `wStages` with a
marker-free first reply. -/
def wRespStay : ChatResponse2 := ⟨"Great!", 1, 5, "u1", "STAY", "c | Child: hi"⟩

/-- The session update enqueued for `wReqStay`. -/
def wUpdStay : SessionUpdate := ⟨1, 5, "c | Child: hi"⟩

/-! ### Claim theorems -/

/-- C2 counterexample: the claim says that below the configured minimum turn
count the action is STAY even when the text contains `[ADVANCE]`.  Neither
`main.py` nor `main1.py` has any minimum-turns gate: at
`stage_turn_count = 0` (below every observed minimum 1..2) with `[ADVANCE]`
in the generated text, `main1.py` returns action ADVANCE, not STAY. -/
theorem c2_claim_counterexample :
    (Main1.chatResponse ⟨"the boy is Sam", 3, 0, "ctx"⟩ "Time to move on! [ADVANCE]").action
      = "ADVANCE" ∧ ("ADVANCE" : String) ≠ "STAY" :=
  ⟨by decide, by decide⟩

/-- C2 amended: there is no minimum-turns gate in the code.  In `main.py`
and `main1.py`, whenever the generated text contains `[ADVANCE]` the action
is ADVANCE, at every stage_turn_count (including 0) and for every user
input. -/
theorem c2_min_gate_amended :
    ∀ (req : ChatRequest) (raw : String), strIn advTag raw = true →
      (Main.chatResponse req raw).action = "ADVANCE" ∧
      (Main1.chatResponse req raw).action = "ADVANCE" := by
  intro req raw h
  have h1 : Main.shouldAdvance req raw = true := by
    rw [Main.shouldAdvance, h, Bool.true_or]
  have h2 : Main1.shouldAdvance req raw = true := by
    rw [Main1.shouldAdvance, h, Bool.true_or, Bool.true_or]
  exact ⟨by simp [Main.chatResponse, h1], by simp [Main1.chatResponse, h2]⟩

/-- Witness for the amended C2 at a concrete input. -/
theorem c2_min_gate_amended_witness :
    (Main.chatResponse ⟨"a", 3, 0, "c"⟩ "[ADVANCE]").action = "ADVANCE" ∧
    (Main1.chatResponse ⟨"a", 3, 0, "c"⟩ "[ADVANCE]").action = "ADVANCE" :=
  c2_min_gate_amended ⟨"a", 3, 0, "c"⟩ "[ADVANCE]" (by decide)

/-- C7 confirmed: in `main1.py`, whenever the user input contains the fixed
completion phrase case-insensitively, the turn is treated as an advance
request regardless of the collaborator marker (there is no minimum-turns
gate in the code, so nothing blocks it), and the action is ADVANCE. -/
theorem c7_completion_phrase :
    ∀ (req : ChatRequest) (raw : String),
      strIn Main1.completionPhrase (pyLower req.user_input) = true →
      (Main1.chatResponse req raw).action = "ADVANCE" := by
  intro req raw h
  have hb : Main1.buttonDone req = true := by rw [Main1.buttonDone, h]
  have h2 : Main1.shouldAdvance req raw = true := by
    rw [Main1.shouldAdvance, hb, Bool.or_true, Bool.true_or]
  simp [Main1.chatResponse, h2]

/-- Witness for C7: completion phrase present (mixed case), collaborator
said `[STAY]`, turn count 0 — action is still ADVANCE. -/
theorem c7_completion_phrase_witness :
    (Main1.chatResponse
      ⟨"I have FINISHED writing this part in my template now", 2, 0, "c"⟩
      "What else could happen? [STAY]").action = "ADVANCE" :=
  c7_completion_phrase
    ⟨"I have FINISHED writing this part in my template now", 2, 0, "c"⟩
    "What else could happen? [STAY]" (by decide)

/-- C5 counterexample: the claim says a failed collaborator call yields a
user-facing try-again response with action STAY rather than an unhandled
fault.  In `main2.py` the `generate_content` call is not wrapped in any
`try`/`except`: a failing call propagates as an unhandled fault and no
action (in particular no STAY) is delivered. -/
theorem c5_claim_counterexample :
    Main2.chat_endpoint wStages1 ⟨"hi", 1, 0, some "c", "b", "s"⟩ none (some "")
      = Outcome2.genFault ∧
    (Main2.chat_endpoint wStages1 ⟨"hi", 1, 0, some "c", "b", "s"⟩ none (some "")).actionOf
      = none :=
  ⟨by decide, by decide⟩

/-- C5 amended: `main.py` and `main1.py` catch a collaborator failure and
convert it into an HTTP 500 carrying an apology detail text (no action
field, not action STAY); `main2.py` lets the failure propagate unhandled.
In `main2.py` no session-state update is enqueued on any turn whose
collaborator call failed, so persisted session state is unchanged. -/
theorem c5_failure_semantics_amended :
    (∀ req : ChatRequest, Main.chat_endpoint req none = Outcome.http500 Main.detailMsg) ∧
    (∀ req : ChatRequest, Main1.chat_endpoint req none = Outcome.http500 Main1.detailMsg) ∧
    (∀ (stages : List StageRow) (req : ChatRequest2) (g2 : Option String),
       (stagesMap stages req.current_stage).isSome = true →
       Main2.chat_endpoint stages req none g2 = Outcome2.genFault) ∧
    (∀ (stages : List StageRow) (req : ChatRequest2) (g2 : Option String),
       (Main2.chat_endpoint stages req none g2).updateOf = none) := by
  refine ⟨fun req => rfl, fun req => rfl, ?_, ?_⟩
  · intro stages req g2 h
    obtain ⟨curr, hcur⟩ := Option.isSome_iff_exists.mp h
    rw [Main2.chat_endpoint, hcur]
  · intro stages req g2
    rw [Main2.chat_endpoint]
    cases stagesMap stages req.current_stage <;> rfl

/-- Witness for the amended C5 at concrete inputs. -/
theorem c5_failure_semantics_amended_witness :
    Main.chat_endpoint ⟨"a", 1, 0, "c"⟩ none = Outcome.http500 Main.detailMsg ∧
    Main2.chat_endpoint wStages1 ⟨"hi", 1, 0, some "c", "b", "s"⟩ none none
      = Outcome2.genFault :=
  ⟨c5_failure_semantics_amended.1 ⟨"a", 1, 0, "c"⟩,
   c5_failure_semantics_amended.2.2.1 wStages1 ⟨"hi", 1, 0, some "c", "b", "s"⟩ none
     (by decide)⟩

/-- C9 counterexample: the claim says a request naming an unknown stage
fails with a not-found error and is never silently substituted.  `main.py`
does the opposite: for the unknown stage 99 the endpoint succeeds normally
(`STAGES.get`/`IMAGE_MAP.get` silently substitute stage-8 data). -/
theorem c9_claim_counterexample :
    STAGES 99 = none ∧
    (Main.chat_endpoint ⟨"hi", 99, 0, "ctx"⟩ (some "hello")).isOk = true :=
  ⟨by decide, by decide⟩

/-- C9 amended: `main.py` never fails on an unknown stage — every
successful-generation turn returns a normal response, silently substituting
final-stage data; `main2.py` raises an unhandled `KeyError` (a generic 500,
not a not-found error) when the requested stage is absent from the catalog
(which includes every request naming an unknown book, whose catalog is
empty), and enqueues no session update. -/
theorem c9_unknown_stage_amended :
    (∀ (req : ChatRequest) (raw : String), (Main.chat_endpoint req (some raw)).isOk = true) ∧
    (∀ (stages : List StageRow) (req : ChatRequest2) (g1 g2 : Option String),
       stagesMap stages req.current_stage = none →
       Main2.chat_endpoint stages req g1 g2 = Outcome2.keyError ∧
       (Main2.chat_endpoint stages req g1 g2).updateOf = none) := by
  refine ⟨fun req raw => rfl, ?_⟩
  intro stages req g1 g2 h
  rw [Main2.chat_endpoint, h]
  exact ⟨rfl, rfl⟩

/-- Witness for the amended C9: stage 99 succeeds in `main.py`; the empty
catalog (unknown book) gives `keyError` and no update in `main2.py`. -/
theorem c9_unknown_stage_amended_witness :
    (Main.chat_endpoint ⟨"hi", 99, 0, "ctx"⟩ (some "ok")).isOk = true ∧
    (Main2.chat_endpoint [] ⟨"hi", 3, 0, some "c", "b", "s"⟩ (some "x") none
       = Outcome2.keyError ∧
     (Main2.chat_endpoint [] ⟨"hi", 3, 0, some "c", "b", "s"⟩ (some "x") none).updateOf
       = none) :=
  ⟨c9_unknown_stage_amended.1 ⟨"hi", 99, 0, "ctx"⟩ "ok",
   c9_unknown_stage_amended.2 [] ⟨"hi", 3, 0, some "c", "b", "s"⟩ (some "x") none
     (by decide)⟩

/-- C10 confirmed: the story context returned by a turn (and, in
`main2.py`, the one persisted by the enqueued session update) extends the
incoming story context — the old context is a prefix, nothing is dropped or
rewritten. -/
theorem c10_context_append :
    (∀ (req : ChatRequest) (raw : String),
       ∃ t, (Main1.chatResponse req raw).story_context = req.story_context ++ t) ∧
    (∀ (stages : List StageRow) (req : ChatRequest2) (raw : String) (g2 : Option String)
       (r : ChatResponse2) (upd : SessionUpdate),
       Main2.chat_endpoint stages req (some raw) g2 = Outcome2.ok r upd →
       (∃ t, r.story_context = (req.story_context.getD "") ++ t) ∧
       upd.story_context = r.story_context) := by
  refine ⟨fun req raw => ⟨" Child: " ++ (req.user_input ++ "."), rfl⟩, ?_⟩
  intro stages req raw g2 r upd h
  obtain ⟨curr, -, nres, hok⟩ := Main2.chat_ok_cases h
  obtain ⟨-, -, -, hctx, -, -, -, hupd⟩ := Main2.okResult_fields hok
  refine ⟨⟨" | Child: " ++ req.user_input, ?_⟩, by rw [hupd, hctx]⟩
  rw [hctx]
  rfl

/-- Witness for C10 at concrete inputs, including a `main2.py` advancing
turn. -/
theorem c10_context_append_witness :
    (∃ t, (Main1.chatResponse ⟨"Sam", 2, 1, "Once"⟩ "ok [STAY]").story_context
       = ("Once" : String) ++ t) ∧
    ((∃ t, wRespAdv.story_context = (wReqAdv.story_context.getD "") ++ t) ∧
     wUpdAdv.story_context = wRespAdv.story_context) :=
  ⟨c10_context_append.1 ⟨"Sam", 2, 1, "Once"⟩ "ok [STAY]",
   c10_context_append.2 wStages wReqAdv "Nice! [ADVANCE]" (some "Next!") wRespAdv wUpdAdv
     (by decide)⟩

/-- Response computed by `main2.py` on the one-stage catalog for `wReqAdv`
when the first reply contains `[ADVANCE]` but no next stage exists. -/
def wRespNoNext : ChatResponse2 := ⟨"", 1, 1, "u1", "STAY", "c | Child: hi"⟩

/-- The session update enqueued for that turn. -/
def wUpdNoNext : SessionUpdate := ⟨1, 1, "c | Child: hi"⟩

/-- C1 counterexample: the claim says that once `stage_turn_count` reaches
the configured maximum the action is ADVANCE (or FINISH) regardless of the
marker.  `main2.py` has no turn ceiling at all: at turn count 4 (at or
above every observed ceiling 2..4) with no marker in the generated text it
returns STAY. -/
theorem c1_claim_counterexample :
    (Main2.chat_endpoint wStages wReqStay (some "Great! [STAY]") (some "")).actionOf
      = some "STAY" ∧
    ("STAY" : String) ≠ "ADVANCE" ∧ ("STAY" : String) ≠ "FINISH" :=
  ⟨by decide, by decide, by decide⟩

/-- C1 amended: only `main.py` has a turn ceiling — whenever
`stage_turn_count ≥ 2` its action is ADVANCE regardless of marker content
(never FINISH, which no snapshot emits; at the final stage the stage is
capped at 8).  `main2.py` has no ceiling: its action is ADVANCE exactly
when the marker is present and a next stage exists. -/
theorem c1_turn_ceiling_amended :
    (∀ (req : ChatRequest) (raw : String), 2 ≤ req.stage_turn_count →
       (Main.chatResponse req raw).action = "ADVANCE") ∧
    (∀ (stages : List StageRow) (req : ChatRequest2) (raw : String) (g2 : Option String)
       (r : ChatResponse2) (upd : SessionUpdate),
       Main2.chat_endpoint stages req (some raw) g2 = Outcome2.ok r upd →
       (r.action = "ADVANCE" ↔
         strIn advTag raw = true ∧
         (stagesMap stages (req.current_stage + 1)).isSome = true)) := by
  constructor
  · intro req raw h
    have h1 : Main.shouldAdvance req raw = true := by
      rw [Main.shouldAdvance, decide_eq_true h, Bool.or_true]
    simp [Main.chatResponse, h1]
  · intro stages req raw g2 r upd h
    obtain ⟨curr, -, nres, hok⟩ := Main2.chat_ok_cases h
    obtain ⟨ha, -⟩ := Main2.okResult_fields hok
    have key : r.action = "ADVANCE" ↔ Main2.shouldAdv stages req raw = true := by
      rw [ha]
      by_cases hadv : Main2.shouldAdv stages req raw = true
      · rw [if_pos hadv]
        simp [hadv]
      · rw [if_neg hadv]
        constructor
        · intro hc
          exact absurd hc (by decide)
        · intro hc
          exact absurd hc hadv
    rw [key, Main2.shouldAdv, Bool.and_eq_true]

/-- Witness for the amended C1 at concrete inputs. -/
theorem c1_turn_ceiling_amended_witness :
    (Main.chatResponse ⟨"x", 3, 3, "c"⟩ "Great! [STAY]").action = "ADVANCE" ∧
    (wRespStay.action = "ADVANCE" ↔
      strIn advTag "Great! [STAY]" = true ∧
      (stagesMap wStages (wReqStay.current_stage + 1)).isSome = true) :=
  ⟨c1_turn_ceiling_amended.1 ⟨"x", 3, 3, "c"⟩ "Great! [STAY]" (by decide),
   c1_turn_ceiling_amended.2 wStages wReqStay "Great! [STAY]" (some "") wRespStay wUpdStay
     (by decide)⟩

/-- C3 counterexample: the claim says an advance decided at the final stage
returns action FINISH.  In `main.py`, at stage 8 (no stage 9 exists) at the
turn ceiling with `[ADVANCE]` in the text, the action is ADVANCE — the code
has no FINISH action (the stage does stay 8). -/
theorem c3_claim_counterexample :
    (Main.chatResponse ⟨"x", 8, 3, "ctx"⟩ "[ADVANCE]").action = "ADVANCE" ∧
    (Main.chatResponse ⟨"x", 8, 3, "ctx"⟩ "[ADVANCE]").current_stage = 8 ∧
    ("ADVANCE" : String) ≠ "FINISH" :=
  ⟨by decide, by decide, by decide⟩

/-- C3 amended: at the final stage no snapshot returns FINISH.  In
`main.py` a decided advance at stage 8 returns action ADVANCE with
`current_stage` capped at 8 and the stage-8 image (lookups use defaulting
access, so no out-of-range fetch occurs).  In `main2.py` an advance is
never decided without a next stage: the action is STAY and the stage is
unchanged. -/
theorem c3_final_stage_amended :
    (∀ (req : ChatRequest) (raw : String), req.current_stage = 8 →
       Main.shouldAdvance req raw = true →
       (Main.chatResponse req raw).action = "ADVANCE" ∧
       (Main.chatResponse req raw).current_stage = 8 ∧
       (Main.chatResponse req raw).image_url = IMAGE_URL_8) ∧
    (∀ (stages : List StageRow) (req : ChatRequest2) (raw : String) (g2 : Option String)
       (r : ChatResponse2) (upd : SessionUpdate),
       stagesMap stages (req.current_stage + 1) = none →
       Main2.chat_endpoint stages req (some raw) g2 = Outcome2.ok r upd →
       r.action = "STAY" ∧ r.current_stage = req.current_stage) := by
  constructor
  · intro req raw h8 hs
    have hstage : Main.newStage req raw = 8 := by
      rw [Main.newStage, Main.uncapped, if_pos hs, h8, if_pos (by norm_num)]
    refine ⟨by simp [Main.chatResponse, hs], hstage, ?_⟩
    show (IMAGE_MAP (Main.newStage req raw)).getD IMAGE_URL_8 = IMAGE_URL_8
    rw [hstage]
    rfl
  · intro stages req raw g2 r upd hn h
    have hadv : Main2.shouldAdv stages req raw = false := by
      rw [Main2.shouldAdv, hn]
      simp
    obtain ⟨curr, -, nres, hok⟩ := Main2.chat_ok_cases h
    obtain ⟨ha, hst, -⟩ := Main2.okResult_fields hok
    constructor
    · rw [ha, if_neg (by simp [hadv])]
    · rw [hst, Main2.newStage, if_neg (by simp [hadv])]

/-- Witness for the amended C3 at concrete inputs. -/
theorem c3_final_stage_amended_witness :
    ((Main.chatResponse ⟨"x", 8, 2, "c"⟩ "Great work!").action = "ADVANCE" ∧
     (Main.chatResponse ⟨"x", 8, 2, "c"⟩ "Great work!").current_stage = 8 ∧
     (Main.chatResponse ⟨"x", 8, 2, "c"⟩ "Great work!").image_url = IMAGE_URL_8) ∧
    (wRespNoNext.action = "STAY" ∧ wRespNoNext.current_stage = wReqAdv.current_stage) :=
  ⟨c3_final_stage_amended.1 ⟨"x", 8, 2, "c"⟩ "Great work!" (by decide) (by decide),
   c3_final_stage_amended.2 wStages1 wReqAdv "[ADVANCE]" (some "") wRespNoNext wUpdNoNext
     (by decide) (by decide)⟩

/-- C4 confirmed: a STAY turn keeps the stage and increments the turn
count; an ADVANCE turn with an existing next stage increments the stage,
resets the turn count to 0, and returns the image of the new stage — in
`main.py` (for catalog-range input stages, the only ones a session can
hold) and in `main2.py`. -/
theorem c4_transition_effects :
    (∀ (req : ChatRequest) (raw : String), req.current_stage ≤ 8 →
       (Main.chatResponse req raw).action = "STAY" →
       (Main.chatResponse req raw).current_stage = req.current_stage ∧
       (Main.chatResponse req raw).stage_turn_count = req.stage_turn_count + 1) ∧
    (∀ (req : ChatRequest) (raw : String),
       (Main.chatResponse req raw).action = "ADVANCE" →
       (STAGES (req.current_stage + 1)).isSome = true →
       (Main.chatResponse req raw).current_stage = req.current_stage + 1 ∧
       (Main.chatResponse req raw).stage_turn_count = 0 ∧
       IMAGE_MAP (Main.chatResponse req raw).current_stage
         = some (Main.chatResponse req raw).image_url) ∧
    (∀ (stages : List StageRow) (req : ChatRequest2) (raw : String) (g2 : Option String)
       (r : ChatResponse2) (upd : SessionUpdate),
       Main2.chat_endpoint stages req (some raw) g2 = Outcome2.ok r upd →
       (r.action = "STAY" →
          r.current_stage = req.current_stage ∧
          r.stage_turn_count = req.stage_turn_count + 1) ∧
       (r.action = "ADVANCE" →
          r.current_stage = req.current_stage + 1 ∧ r.stage_turn_count = 0 ∧
          ∃ srow, stagesMap stages r.current_stage = some srow ∧
            r.image_url = srow.image_url)) := by
  refine ⟨?_, ?_, ?_⟩
  · intro req raw h8 hact
    have hs : Main.shouldAdvance req raw = false := by
      by_contra hc
      rw [Bool.not_eq_false] at hc
      have hadv : (Main.chatResponse req raw).action = "ADVANCE" := by
        simp [Main.chatResponse, hc]
      rw [hact] at hadv
      exact absurd hadv (by decide)
    constructor
    · show Main.newStage req raw = req.current_stage
      rw [Main.newStage, Main.uncapped,
        if_neg (show ¬(Main.shouldAdvance req raw = true) from by simp [hs]),
        if_neg (show ¬((8 : Int) < req.current_stage) from by omega)]
    · show Main.newTurn req raw = req.stage_turn_count + 1
      rw [Main.newTurn, if_neg (show ¬(Main.shouldAdvance req raw = true) from by simp [hs])]
  · intro req raw hact hnext
    have hs : Main.shouldAdvance req raw = true := by
      by_contra hc
      rw [Bool.not_eq_true] at hc
      have hstay : (Main.chatResponse req raw).action = "STAY" := by
        simp [Main.chatResponse, hc]
      rw [hact] at hstay
      exact absurd hstay (by decide)
    rw [STAGES_isSome_iff] at hnext
    have hstage : Main.newStage req raw = req.current_stage + 1 := by
      rw [Main.newStage, Main.uncapped, if_pos hs,
        if_neg (show ¬((8 : Int) < req.current_stage + 1) from by omega)]
    refine ⟨hstage, ?_, ?_⟩
    · show Main.newTurn req raw = 0
      rw [Main.newTurn, if_pos hs]
    · show IMAGE_MAP (Main.newStage req raw)
        = some ((IMAGE_MAP (Main.newStage req raw)).getD IMAGE_URL_8)
      have himg : (IMAGE_MAP (Main.newStage req raw)).isSome = true := by
        rw [IMAGE_MAP_isSome_iff, hstage]
        omega
      obtain ⟨u, hu⟩ := Option.isSome_iff_exists.mp himg
      rw [hu]
      rfl
  · intro stages req raw g2 r upd h
    obtain ⟨curr, hcur, nres, hok⟩ := Main2.chat_ok_cases h
    obtain ⟨ha, hst, htn, -, himg, -⟩ := Main2.okResult_fields hok
    by_cases hadv : Main2.shouldAdv stages req raw = true
    · rw [if_pos hadv] at ha
      constructor
      · intro hstay
        rw [ha] at hstay
        exact absurd hstay (by decide)
      · intro _
        have hns : Main2.newStage stages req raw = req.current_stage + 1 := by
          rw [Main2.newStage, if_pos hadv]
        have hnx : (stagesMap stages (req.current_stage + 1)).isSome = true := by
          rw [Main2.shouldAdv, Bool.and_eq_true] at hadv
          exact hadv.2
        obtain ⟨srow, hsrow⟩ := Option.isSome_iff_exists.mp hnx
        refine ⟨by rw [hst, hns], by rw [htn, Main2.newTurn, if_pos hadv], srow, ?_, ?_⟩
        · rw [hst, hns, hsrow]
        · rw [himg, Main2.finalImage, hns, hsrow]
    · rw [if_neg hadv] at ha
      constructor
      · intro _
        exact ⟨by rw [hst, Main2.newStage, if_neg hadv],
          by rw [htn, Main2.newTurn, if_neg hadv]⟩
      · intro hadv2
        rw [ha] at hadv2
        exact absurd hadv2 (by decide)

/-- Witness for C4 at concrete inputs: a `main.py` STAY turn, a `main.py`
ADVANCE turn with a next stage, and a `main2.py` advancing turn. -/
theorem c4_transition_effects_witness :
    ((Main.chatResponse ⟨"a", 3, 0, "c"⟩ "hello [STAY]").current_stage = 3 ∧
     (Main.chatResponse ⟨"a", 3, 0, "c"⟩ "hello [STAY]").stage_turn_count = 1) ∧
    ((Main.chatResponse ⟨"a", 3, 3, "c"⟩ "x").current_stage = 4 ∧
     (Main.chatResponse ⟨"a", 3, 3, "c"⟩ "x").stage_turn_count = 0 ∧
     IMAGE_MAP (Main.chatResponse ⟨"a", 3, 3, "c"⟩ "x").current_stage
       = some (Main.chatResponse ⟨"a", 3, 3, "c"⟩ "x").image_url) ∧
    ((wRespAdv.action = "STAY" →
        wRespAdv.current_stage = wReqAdv.current_stage ∧
        wRespAdv.stage_turn_count = wReqAdv.stage_turn_count + 1) ∧
     (wRespAdv.action = "ADVANCE" →
        wRespAdv.current_stage = wReqAdv.current_stage + 1 ∧
        wRespAdv.stage_turn_count = 0 ∧
        ∃ srow, stagesMap wStages wRespAdv.current_stage = some srow ∧
          wRespAdv.image_url = srow.image_url)) :=
  ⟨c4_transition_effects.1 ⟨"a", 3, 0, "c"⟩ "hello [STAY]" (by decide) (by decide),
   c4_transition_effects.2.1 ⟨"a", 3, 3, "c"⟩ "x" (by decide) (by decide),
   c4_transition_effects.2.2 wStages wReqAdv "Nice! [ADVANCE]" (some "Next!")
     wRespAdv wUpdAdv (by decide)⟩

/-- C8 confirmed: for catalog-range input stages (1..8, the only ones a
session can hold — `/start` begins at 1 and the bound is preserved), the
returned stage never regresses; in `main2.py` this holds for every input
stage. -/
theorem c8_stage_monotone :
    (∀ (req : ChatRequest) (raw : String), req.current_stage ≤ 8 →
       req.current_stage ≤ (Main.chatResponse req raw).current_stage ∧
       (Main.chatResponse req raw).current_stage ≤ 8) ∧
    (∀ (stages : List StageRow) (req : ChatRequest2) (raw : String) (g2 : Option String)
       (r : ChatResponse2) (upd : SessionUpdate),
       Main2.chat_endpoint stages req (some raw) g2 = Outcome2.ok r upd →
       req.current_stage ≤ r.current_stage) := by
  constructor
  · intro req raw h8
    show req.current_stage ≤ Main.newStage req raw ∧ Main.newStage req raw ≤ 8
    rw [Main.newStage, Main.uncapped]
    by_cases hs : Main.shouldAdvance req raw = true
    · rw [if_pos hs]
      by_cases hc : (8 : Int) < req.current_stage + 1
      · rw [if_pos hc]
        omega
      · rw [if_neg hc]
        omega
    · rw [if_neg hs, if_neg (show ¬((8 : Int) < req.current_stage) from by omega)]
      omega
  · intro stages req raw g2 r upd h
    obtain ⟨curr, -, nres, hok⟩ := Main2.chat_ok_cases h
    obtain ⟨-, hst, -⟩ := Main2.okResult_fields hok
    rw [hst, Main2.newStage]
    by_cases hadv : Main2.shouldAdv stages req raw = true
    · rw [if_pos hadv]
      omega
    · rw [if_neg hadv]

/-- Witness for C8 at concrete inputs. -/
theorem c8_stage_monotone_witness :
    ((3 : Int) ≤ (Main.chatResponse ⟨"a", 3, 3, "c"⟩ "x").current_stage ∧
     (Main.chatResponse ⟨"a", 3, 3, "c"⟩ "x").current_stage ≤ 8) ∧
    wReqAdv.current_stage ≤ wRespAdv.current_stage :=
  ⟨c8_stage_monotone.1 ⟨"a", 3, 3, "c"⟩ "x" (by decide),
   c8_stage_monotone.2 wStages wReqAdv "Nice! [ADVANCE]" (some "Next!") wRespAdv wUpdAdv
     (by decide)⟩

/-- C6 counterexample: sanitization is not idempotent, and sanitized text
can still contain a marker.  Marker removal is a single left-to-right pass,
so removing the inner `[STAY]` of `[ST[STAY]AY]` splices the surrounding
characters into a new `[STAY]`, which the first pass does not remove but a
second pass does. -/
theorem c6_claim_counterexample :
    Main1.cleanReply "[ST[STAY]AY]" = "[STAY]" ∧
    Main1.cleanReply (Main1.cleanReply "[ST[STAY]AY]") ≠ Main1.cleanReply "[ST[STAY]AY]" :=
  ⟨by decide, by decide⟩

/-- C6 amended: sanitization is idempotent exactly on texts whose sanitized
form is marker-free and label-free — if one pass leaves no `[STAY]`, no
`[ADVANCE]` and no leading emotion label, a second pass changes nothing.
(The unconditional claim fails because a removal can splice a new marker
together, as the counterexample shows.) -/
theorem c6_sanitize_idem_amended (t : String)
    (h1 : strIn advTag (Main1.cleanReply t) = false)
    (h2 : strIn stayTag (Main1.cleanReply t) = false)
    (h3 : Main1.hasLabel (Main1.cleanReply t) = false) :
    Main1.cleanReply (Main1.cleanReply t) = Main1.cleanReply t := by
  conv_lhs => rw [Main1.cleanReply]
  rw [rmMarkers_of_clean h1 h2, Main1.pyStrip_cleanReply, Main1.stripLabels_of_no_label h3]

/-- Witness for the amended C6 at a concrete input. -/
theorem c6_sanitize_idem_amended_witness :
    (strIn advTag (Main1.cleanReply "Great job! [STAY]") = false ∧
     strIn stayTag (Main1.cleanReply "Great job! [STAY]") = false ∧
     Main1.hasLabel (Main1.cleanReply "Great job! [STAY]") = false) ∧
    Main1.cleanReply (Main1.cleanReply "Great job! [STAY]")
      = Main1.cleanReply "Great job! [STAY]" :=
  ⟨⟨by decide, by decide, by decide⟩,
   c6_sanitize_idem_amended "Great job! [STAY]" (by decide) (by decide) (by decide)⟩

end StoryBuddy
